import Mathlib

/-!
# Verification of the TaskFlow user module

A shallow embedding of the `users` app (models.py, serializers.py, views.py):
email-based registration, login and profile management.

Modelling conventions:
* Python strings are modelled as `List Char` (`PyStr`); `str.lower` is modelled
  by `Char.toLower` per character (faithful on ASCII, the domain of every rule
  in the source), `str.strip` by dropping the ASCII whitespace characters that
  Python's default `strip` removes.
* The relational store is a list of identities plus a primary-key counter; the
  database `unique=True` constraint on `email` is an exact string comparison,
  checked at insert time.
* Password hashing is delegated to Django (`set_password`/`check_password`);
  it is modelled as the identity map on the credential string, i.e. an opaque
  injective hash.
* Django REST framework field handling (`trim_whitespace`, `min_length`,
  `max_length`, blank checks, error collection per field) is translated from
  the serializer field declarations in `serializers.py`.
-/

/-- Python strings, modelled as lists of characters. -/
abbrev PyStr := List Char

/-- Conversion from a Lean string literal to the `PyStr` model. -/
def pystr (s : String) : PyStr := s.data

/-- The ASCII whitespace characters removed by Python's default `str.strip`. -/
def isSpaceChar (c : Char) : Bool :=
  c.toNat = 32 || c.toNat = 9 || c.toNat = 10 || c.toNat = 13 ||
    c.toNat = 11 || c.toNat = 12

/-- Python `str.lower`, character-wise (faithful on ASCII input). -/
def pyLower (s : PyStr) : PyStr := s.map Char.toLower

/-- Python `str.lstrip()`. -/
def stripLeft (s : PyStr) : PyStr := s.dropWhile isSpaceChar

/-- Python `str.rstrip()`. -/
def stripRight (s : PyStr) : PyStr := (s.reverse.dropWhile isSpaceChar).reverse

/-- Python `str.strip()`. -/
def pyStrip (s : PyStr) : PyStr := stripRight (stripLeft s)

/-- Python `str.rsplit(sep, 1)` on a single-character separator, returning the
parts before and after the *last* occurrence, or `none` if absent. -/
def rsplitLast (sep : Char) (s : PyStr) : Option (PyStr × PyStr) :=
  match s.reverse.dropWhile (fun x => decide (x ≠ sep)) with
  | [] => none
  | _ :: rloc =>
      some (rloc.reverse, (s.reverse.takeWhile (fun x => decide (x ≠ sep))).reverse)

/-! ## Character-level lemmas -/

theorem charOfNat_toNat (n : Nat) (h : n.isValidChar) : (Char.ofNat n).toNat = n := by
  simp [Char.ofNat, h]
  rfl

theorem char_eq_of_toNat {a b : Char} (h : a.toNat = b.toNat) : a = b := by
  have h2 := congrArg Char.ofNat h
  rwa [Char.ofNat_toNat, Char.ofNat_toNat] at h2

theorem toLower_toNat_of_upper {c : Char} (h : c.toNat ≥ 65 ∧ c.toNat ≤ 90) :
    (Char.toLower c).toNat = c.toNat + 32 := by
  simp only [Char.toLower]
  rw [if_pos h]
  exact charOfNat_toNat _ (Or.inl (by omega))

theorem toLower_of_not_upper {c : Char} (h : ¬(c.toNat ≥ 65 ∧ c.toNat ≤ 90)) :
    Char.toLower c = c := by
  simp only [Char.toLower]
  rw [if_neg h]

theorem toLower_toLower (c : Char) : Char.toLower (Char.toLower c) = Char.toLower c := by
  by_cases h : c.toNat ≥ 65 ∧ c.toNat ≤ 90
  · have ht := toLower_toNat_of_upper h
    apply toLower_of_not_upper
    omega
  · rw [toLower_of_not_upper h, toLower_of_not_upper h]

/-- `Char.toLower` neither produces nor destroys any character that is not an
ASCII letter: equality with such a character is unaffected. -/
theorem toLower_eq_char (c d : Char) (hd : d.toNat < 65 ∨ 90 < d.toNat)
    (hd2 : d.toNat < 97 ∨ 122 < d.toNat) :
    (Char.toLower c = d) = (c = d) := by
  by_cases h : c.toNat ≥ 65 ∧ c.toNat ≤ 90
  · have ht := toLower_toNat_of_upper h
    have h1 : Char.toLower c ≠ d := by
      intro he
      have h3 := congrArg Char.toNat he
      omega
    have h2 : c ≠ d := by
      intro he
      subst he
      omega
    simp [h1, h2]
  · rw [toLower_of_not_upper h]

theorem isSpaceChar_toLower (c : Char) : isSpaceChar (Char.toLower c) = isSpaceChar c := by
  by_cases h : c.toNat ≥ 65 ∧ c.toNat ≤ 90
  · have ht := toLower_toNat_of_upper h
    have h1 : isSpaceChar (Char.toLower c) = false := by
      simp only [isSpaceChar, Bool.or_eq_false_iff, decide_eq_false_iff_not]
      omega
    have h2 : isSpaceChar c = false := by
      simp only [isSpaceChar, Bool.or_eq_false_iff, decide_eq_false_iff_not]
      omega
    rw [h1, h2]
  · rw [toLower_of_not_upper h]

/-! ## String-level lemmas: `strip`, `lower` and their interaction -/

theorem dropWhile_idem (p : Char → Bool) (l : PyStr) :
    (l.dropWhile p).dropWhile p = l.dropWhile p := by
  induction l with
  | nil => rfl
  | cons x xs ih =>
      by_cases h : p x
      · simp [List.dropWhile_cons, h, ih]
      · simp [List.dropWhile_cons, h]

theorem dropWhile_head_false {p : Char → Bool} {l : PyStr} {x : Char} {xs : PyStr}
    (h : l.dropWhile p = x :: xs) : p x = false := by
  induction l with
  | nil => simp at h
  | cons y ys ih =>
      rw [List.dropWhile_cons] at h
      by_cases hy : p y
      · rw [if_pos hy] at h
        exact ih h
      · rw [if_neg hy] at h
        cases h
        exact Bool.not_eq_true _ ▸ (by simpa using hy)

theorem stripLeft_of_head_false {x : Char} {xs : PyStr} (h : isSpaceChar x = false) :
    stripLeft (x :: xs) = x :: xs := by
  simp [stripLeft, List.dropWhile_cons, h]

theorem stripLeft_idem (s : PyStr) : stripLeft (stripLeft s) = stripLeft s := by
  unfold stripLeft
  exact dropWhile_idem _ _

theorem stripRight_idem (s : PyStr) : stripRight (stripRight s) = stripRight s := by
  unfold stripRight
  rw [List.reverse_reverse, dropWhile_idem]

theorem stripRight_prefix (s : PyStr) : stripRight s <+: s := by
  have h : s.reverse.dropWhile isSpaceChar <:+ s.reverse := List.dropWhile_suffix _
  have h2 := List.reverse_prefix.mpr (by simpa using h)
  simpa [stripRight] using h2

theorem stripLeft_stripRight_of_fixed {t : PyStr} (ht : stripLeft t = t) :
    stripLeft (stripRight t) = stripRight t := by
  cases h : stripRight t with
  | nil => simp [stripLeft]
  | cons x xs =>
      have hpre : stripRight t <+: t := stripRight_prefix t
      rw [h] at hpre
      obtain ⟨rest, hrest⟩ := hpre
      have ht' : List.dropWhile isSpaceChar t = x :: (xs ++ rest) := by
        unfold stripLeft at ht
        rw [ht, ← hrest]
        simp
      exact stripLeft_of_head_false (dropWhile_head_false ht')

theorem pyStrip_idem (s : PyStr) : pyStrip (pyStrip s) = pyStrip s := by
  unfold pyStrip
  rw [stripLeft_stripRight_of_fixed (stripLeft_idem s), stripRight_idem]

theorem stripLeft_pyLower (s : PyStr) : stripLeft (pyLower s) = pyLower (stripLeft s) := by
  have hf : (isSpaceChar ∘ Char.toLower) = isSpaceChar := funext isSpaceChar_toLower
  simp only [stripLeft, pyLower, List.dropWhile_map, hf]

theorem stripRight_pyLower (s : PyStr) : stripRight (pyLower s) = pyLower (stripRight s) := by
  have hf : (isSpaceChar ∘ Char.toLower) = isSpaceChar := funext isSpaceChar_toLower
  simp only [stripRight, pyLower, ← List.map_reverse, List.dropWhile_map, hf]

theorem pyStrip_pyLower (s : PyStr) : pyStrip (pyLower s) = pyLower (pyStrip s) := by
  unfold pyStrip
  rw [stripLeft_pyLower, stripRight_pyLower]

theorem pyLower_pyLower (s : PyStr) : pyLower (pyLower s) = pyLower s := by
  have hf : (Char.toLower ∘ Char.toLower) = Char.toLower := funext toLower_toLower
  simp only [pyLower, List.map_map, hf]

/-! ## `rsplitLast` lemmas -/

theorem rsplitLast_some {sep : Char} {s a b : PyStr}
    (h : rsplitLast sep s = some (a, b)) :
    s = a ++ sep :: b ∧ ∀ c ∈ b, c ≠ sep := by
  unfold rsplitLast at h
  cases hd : s.reverse.dropWhile (fun x => decide (x ≠ sep)) with
  | nil => rw [hd] at h; simp at h
  | cons y ys =>
      rw [hd] at h
      simp only [Option.some.injEq, Prod.mk.injEq] at h
      obtain ⟨ha, hb⟩ := h
      have hy : y = sep := by
        have h2 := dropWhile_head_false hd
        simpa using h2
      have hsr : s.reverse = s.reverse.takeWhile (fun x => decide (x ≠ sep)) ++ y :: ys := by
        conv_lhs =>
          rw [← List.takeWhile_append_dropWhile (fun x => decide (x ≠ sep)) s.reverse]
        rw [hd]
      constructor
      · have h3 := congrArg List.reverse hsr
        rw [List.reverse_reverse] at h3
        rw [h3, List.reverse_append]
        subst ha hb hy
        simp
      · intro c hc
        subst hb
        have hc' : c ∈ s.reverse.takeWhile (fun x => decide (x ≠ sep)) := by
          simpa using hc
        have h4 := List.mem_takeWhile_imp hc'
        simpa using h4

theorem rsplitLast_map (f : Char → Char) (sep : Char)
    (hf : ∀ x, (f x = sep) = (x = sep)) (s : PyStr) :
    rsplitLast sep (s.map f) =
      (rsplitLast sep s).map (fun p => (p.1.map f, p.2.map f)) := by
  have hp : ((fun x => decide (x ≠ sep)) ∘ f) = (fun x => decide (x ≠ sep)) := by
    funext x
    simp only [Function.comp]
    exact decide_eq_decide.mpr (not_congr (iff_of_eq (hf x)))
  unfold rsplitLast
  rw [← List.map_reverse, List.dropWhile_map, hp, List.takeWhile_map, hp]
  cases h : s.reverse.dropWhile (fun x => decide (x ≠ sep)) with
  | nil => simp
  | cons y ys => simp [List.map_reverse]

/-! ## Email format validation (external collaborator) -/

/-- Modelled from the spec: Django's `EmailValidator` is a framework
collaborator, not code of this repository; spec section 4.1 describes the
accepted shape as "local@domain form with non-empty local and domain parts
containing at least one dot on the domain side".  The split is taken at the
last `@`, mirroring `rsplit`. -/
def emailFormatValid (s : PyStr) : Bool :=
  match rsplitLast '@' s with
  | none => false
  | some (locPart, domPart) =>
      !locPart.isEmpty && !domPart.isEmpty && domPart.any (fun c => decide (c = '.'))

theorem isEmpty_map (f : Char → Char) (l : PyStr) : (l.map f).isEmpty = l.isEmpty := by
  cases l <;> rfl

theorem emailFormatValid_pyLower (s : PyStr) :
    emailFormatValid (pyLower s) = emailFormatValid s := by
  unfold emailFormatValid pyLower
  rw [rsplitLast_map Char.toLower '@' (fun x => toLower_eq_char x '@' (by decide) (by decide))]
  cases h : rsplitLast '@' s with
  | none => rfl
  | some p =>
      obtain ⟨a, b⟩ := p
      have hdot : ((fun c => decide (c = '.')) ∘ Char.toLower) = (fun c => decide (c = '.')) := by
        funext x
        simp only [Function.comp]
        exact decide_eq_decide.mpr (iff_of_eq (toLower_eq_char x '.' (by decide) (by decide)))
      simp [List.any_map, hdot, isEmpty_map]

/-! ## Email normalisation in the user manager -/

/-- `BaseUserManager.normalize_email` (Django, called from models.py line 15):
splits the stripped string at the last `@`, lowercases the domain part, and
returns the input unchanged when no `@` is present. -/
def normalize_email (email : PyStr) : PyStr :=
  match rsplitLast '@' (pyStrip email) with
  | none => email
  | some (emailName, domainPart) => emailName ++ '@' :: pyLower domainPart

/-- The full normalisation `self.normalize_email(email).lower().strip()`
performed by `_create_user` (models.py line 15). -/
def storedEmail (email : PyStr) : PyStr := pyStrip (pyLower (normalize_email email))

theorem storedEmail_eq (e : PyStr) : storedEmail e = pyStrip (pyLower e) := by
  unfold storedEmail normalize_email
  cases h : rsplitLast '@' (pyStrip e) with
  | none => rfl
  | some p =>
      obtain ⟨a, b⟩ := p
      obtain ⟨hrecon, _⟩ := rsplitLast_some h
      have hAt : Char.toLower '@' = '@' := by decide
      have hf : (Char.toLower ∘ Char.toLower) = Char.toLower := funext toLower_toLower
      have h1 : pyLower (a ++ '@' :: pyLower b) = pyLower (a ++ '@' :: b) := by
        simp [pyLower, List.map_map, hf, hAt]
      rw [h1, ← hrecon, ← pyStrip_pyLower, pyStrip_idem]

theorem pyLower_storedEmail (e : PyStr) : pyLower (storedEmail e) = storedEmail e := by
  rw [storedEmail_eq, ← pyStrip_pyLower, pyLower_pyLower]

theorem pyStrip_storedEmail (e : PyStr) : pyStrip (storedEmail e) = storedEmail e := by
  rw [storedEmail_eq, pyStrip_idem]

/-! ## Data model: identities and the store -/

/-- One row of the custom user table (models.py, `CustomUser`).  The password
credential is stored hashed; hashing is delegated to Django and modelled as an
opaque injective function (the identity map on the credential string). -/
structure Identity where
  pk : Nat
  email : PyStr
  passwordHash : PyStr
  first_name : Option PyStr
  last_name : Option PyStr
  is_active : Bool
  is_staff : Bool
  is_superuser : Bool
  deriving Repr, DecidableEq

/-- A Python `ValueError` or a storage-layer `IntegrityError`. -/
inductive CreateError where
  | valueError (msg : String)
  | integrityError
  deriving Repr, DecidableEq

/-- The relational store: the user table plus a primary-key counter. -/
structure Store where
  users : List Identity
  nextPk : Nat
  deriving Repr, DecidableEq

def emptyStore : Store := ⟨[], 0⟩

/-- `User.objects.filter(email=value).exists()`: the ORM `exact` lookup is a
case-sensitive string comparison. -/
def Store.emailExists (s : Store) (e : PyStr) : Bool :=
  s.users.any (fun u => decide (u.email = e))

/-- `User.objects.filter(email=value).exclude(pk=pk).exists()`
(serializers.py line 109). -/
def Store.emailExistsExcluding (s : Store) (e : PyStr) (pk : Nat) : Bool :=
  s.users.any (fun u => decide (u.email = e) && decide (u.pk ≠ pk))

/-- Django's `set_password`: hashing is delegated; modelled as an opaque
injective hash (the identity map on the credential). -/
def hashPassword (p : PyStr) : PyStr := p

/-- `check_password`: the credential comparison done by the authentication
delegate against the stored hash. -/
def check_password (raw : PyStr) (u : Identity) : Bool :=
  decide (hashPassword raw = u.passwordHash)

/-- `user.save(using=self._db)` on a fresh row: the storage layer enforces the
`unique=True` constraint on `email` and raises `IntegrityError` on conflict. -/
def Store.insert (s : Store) (email pwHash : PyStr) (fn ln : Option PyStr)
    (active staff su : Bool) : Except CreateError (Identity × Store) :=
  if s.emailExists email then .error .integrityError
  else
    let u : Identity := ⟨s.nextPk, email, pwHash, fn, ln, active, staff, su⟩
    .ok (u, ⟨s.users ++ [u], s.nextPk + 1⟩)

/-- Name truncation in `_create_user` (models.py lines 18-21): a provided,
truthy (non-empty) name is cut to the model's `max_length` of 30. -/
def truncName (n : Option PyStr) : Option PyStr :=
  match n with
  | none => none
  | some v => if v.isEmpty then some v else some (v.take 30)

/-- `CustomUserManager._create_user` (models.py lines 8-26).  A raised
`ValueError` is modelled as `.error (.valueError msg)`; both truthiness guards
run before any storage access.  `none` models a missing / `None` argument,
which is falsy in Python exactly like the empty string. -/
def _create_user (s : Store) (email password : Option PyStr)
    (first_name last_name : Option PyStr)
    (is_active is_staff is_superuser : Bool) : Except CreateError (Identity × Store) :=
  match email with
  | none => .error (.valueError "The Email field must be set")
  | some e =>
      if e.isEmpty then .error (.valueError "The Email field must be set")
      else
        match password with
        | none => .error (.valueError "The Password field must be set")
        | some p =>
            if p.isEmpty then .error (.valueError "The Password field must be set")
            else
              s.insert (storedEmail e) (hashPassword p)
                (truncName first_name) (truncName last_name) is_active is_staff is_superuser

/-- `CustomUserManager.create_user` (models.py lines 28-32): defaults
`is_staff` and `is_superuser` to `False`; `is_active` keeps the model field
default `True`. -/
def create_user (s : Store) (email password : Option PyStr)
    (first_name last_name : Option PyStr) : Except CreateError (Identity × Store) :=
  _create_user s email password first_name last_name true false false

/-! ## Serializer layer -/

/-- A DRF field-keyed error map, as returned by `serializer.errors`. -/
structure FieldErrors where
  email : List String := []
  password : List String := []
  password_confirm : List String := []
  first_name : List String := []
  last_name : List String := []
  non_field_errors : List String := []
  deriving Repr, DecidableEq

/-- DRF `EmailField` front end (`required`, `allow_blank=False`,
`trim_whitespace=True`, then `EmailValidator`). -/
def emailFieldErrors (v : PyStr) : List String :=
  if (pyStrip v).isEmpty then ["This field may not be blank."]
  else if !emailFormatValid (pyStrip v) then ["Enter a valid email address."]
  else []

/-- `UserRegistrationSerializer.validate_email` (serializers.py lines 21-25)
after the field front end: the duplicate check is `filter(email=value)`, an
exact (case-sensitive) comparison against stored emails.  The
`UniqueValidator` that `ModelSerializer` derives from the model's
`unique=True` performs the same exact-match lookup, so the two are modelled as
this single check. -/
def regEmailErrors (store : Store) (v : PyStr) : List String :=
  match emailFieldErrors v with
  | [] =>
      if store.emailExists (pyStrip v) then ["A user with that email already exists."]
      else []
  | es => es

/-- Modelled from the spec: Django's `validate_password`
(`AUTH_PASSWORD_VALIDATORS`, configured in project settings that are not under
src/) — spec section 4.1 calls these "the Identity Store's generic strength
checks (delegated)".  No claim turns on their behaviour; they are modelled as
accepting every password that reaches them. -/
def django_validate_password (p : PyStr) : List String := []

/-- `re.search(r'[A-Z]', value)` (ASCII). -/
def hasUpper (p : PyStr) : Bool := p.any (fun c => 65 ≤ c.toNat && c.toNat ≤ 90)

/-- `re.search(r'[a-z]', value)` (ASCII). -/
def hasLower (p : PyStr) : Bool := p.any (fun c => 97 ≤ c.toNat && c.toNat ≤ 122)

/-- `re.search(r'\d', value)` (ASCII decimal digits). -/
def hasDigit (p : PyStr) : Bool := p.any (fun c => 48 ≤ c.toNat && c.toNat ≤ 57)

/-- `UserRegistrationSerializer.validate_password` (serializers.py lines
27-51): each check raises immediately, so only the FIRST failed rule is
reported. -/
def validate_password (p : PyStr) : List String :=
  if p.length < 8 then ["Password must be at least 8 characters long."]
  else if !hasUpper p then ["Password must contain at least one uppercase letter."]
  else if !hasLower p then ["Password must contain at least one lowercase letter."]
  else if !hasDigit p then ["Password must contain at least one number."]
  else django_validate_password p

/-- The declared `password = CharField(write_only=True, min_length=8)`: blank
check and trim, then `MinLengthValidator(8)`, then the serializer's
`validate_password` hook (which runs only when the field validators pass). -/
def regPasswordErrors (v : PyStr) : List String :=
  if (pyStrip v).isEmpty then ["This field may not be blank."]
  else if (pyStrip v).length < 8 then ["Ensure this field has at least 8 characters."]
  else validate_password (pyStrip v)

/-- `password_confirm = CharField(write_only=True)`. -/
def confirmFieldErrors (v : PyStr) : List String :=
  if (pyStrip v).isEmpty then ["This field may not be blank."] else []

/-- `first_name` / `last_name` as generated by `ModelSerializer` from
`CharField(max_length=30, blank=True, null=True)`: optional, blank allowed,
trimmed, `MaxLengthValidator(30)`. -/
def nameFieldErrors (v : PyStr) : List String :=
  if 30 < (pyStrip v).length then ["Ensure this field has no more than 30 characters."]
  else []

def optNameErrors (v : Option PyStr) : List String :=
  match v with
  | none => []
  | some x => nameFieldErrors x

/-! ## Registration -/

/-- A registration request body providing the three required fields; the
optional name fields may be absent. -/
structure RegistrationInput where
  email : PyStr
  password : PyStr
  password_confirm : PyStr
  first_name : Option PyStr := none
  last_name : Option PyStr := none
  deriving Repr, DecidableEq

/-- The serializer's `validated_data` for registration (trimmed field
values). -/
structure ValidatedReg where
  email : PyStr
  password : PyStr
  first_name : Option PyStr
  last_name : Option PyStr
  deriving Repr, DecidableEq

/-- `UserRegistrationSerializer.is_valid()`: every field is validated and its
errors collected under its key; the object-level `validate` (serializers.py
lines 53-59) runs only when all fields pass, raising the mismatch error keyed
to `password_confirm`. -/
def registrationValidate (store : Store) (inp : RegistrationInput) :
    Except FieldErrors ValidatedReg :=
  let eErrs := regEmailErrors store inp.email
  let pErrs := regPasswordErrors inp.password
  let cErrs := confirmFieldErrors inp.password_confirm
  let fnErrs := optNameErrors inp.first_name
  let lnErrs := optNameErrors inp.last_name
  if eErrs.isEmpty && pErrs.isEmpty && cErrs.isEmpty && fnErrs.isEmpty && lnErrs.isEmpty then
    if pyStrip inp.password ≠ pyStrip inp.password_confirm then
      .error { password_confirm := ["Passwords do not match."] }
    else
      .ok ⟨pyStrip inp.email, pyStrip inp.password,
        inp.first_name.map pyStrip, inp.last_name.map pyStrip⟩
  else
    .error ⟨eErrs, pErrs, cErrs, fnErrs, lnErrs, []⟩

/-- HTTP outcome of `POST /register`. -/
inductive RegisterResult where
  | created (user : Identity)
  | badRequest (errors : FieldErrors)
  | serverError (e : CreateError)
  deriving Repr, DecidableEq

/-- `UserRegistrationView.post` (views.py lines 27-46): validate, then
`serializer.save()` → `create()` → `create_user` (after popping
`password_confirm`).  Token issuance is delegated to the Token Issuer and
happens only in the 201 branch.  An exception escaping `create_user`
(`IntegrityError`, `ValueError`) is not caught by the view and surfaces as a
server error with the store unchanged. -/
def register (store : Store) (inp : RegistrationInput) : RegisterResult × Store :=
  match registrationValidate store inp with
  | .error errs => (.badRequest errs, store)
  | .ok v =>
      match create_user store (some v.email) (some v.password) v.first_name v.last_name with
      | .error e => (.serverError e, store)
      | .ok (u, s') => (.created u, s')

/-! ## Login -/

structure LoginInput where
  email : PyStr
  password : PyStr
  deriving Repr, DecidableEq

/-- `password = CharField()` on the login serializer. -/
def loginPasswordFieldErrors (v : PyStr) : List String :=
  if (pyStrip v).isEmpty then ["This field may not be blank."] else []

/-- Modelled from the spec: `django.contrib.auth.authenticate` and the
project's `AUTHENTICATION_BACKENDS` setting are not under src/.  Spec section
4.1 says the login flow "Looks up Identity by case-insensitive email"; per the
spec's section 9 open question the activation flag is checked *afterwards* by
the login serializer, so the delegate returns the matched identity regardless
of `is_active` and fails only on a missing account or wrong password. -/
def authenticate (store : Store) (email password : PyStr) : Option Identity :=
  match store.users.find? (fun u => decide (pyLower u.email = pyLower email)) with
  | none => none
  | some u => if check_password password u then some u else none

/-- `UserLoginSerializer` (serializers.py lines 71-93): two declared fields,
then `validate`, whose failures land in `non_field_errors`. -/
def loginValidate (store : Store) (inp : LoginInput) : Except FieldErrors Identity :=
  let eErrs := emailFieldErrors inp.email
  let pErrs := loginPasswordFieldErrors inp.password
  if eErrs.isEmpty && pErrs.isEmpty then
    let e := pyStrip inp.email
    let p := pyStrip inp.password
    if !e.isEmpty && !p.isEmpty then
      match authenticate store e p with
      | none => .error { non_field_errors := ["Invalid email or password."] }
      | some u =>
          if !u.is_active then .error { non_field_errors := ["User account is disabled."] }
          else .ok u
    else .error { non_field_errors := ["Must provide email and password."] }
  else
    .error { email := eErrs, password := pErrs }

/-! ## Profile update -/

/-- A `PUT`/`PATCH /profile` body; `none` models an absent key. -/
structure ProfileUpdateInput where
  email : Option PyStr := none
  first_name : Option PyStr := none
  last_name : Option PyStr := none
  deriving Repr, DecidableEq

/-- `UserProfileSerializer.validate_email` (serializers.py lines 106-111)
after the field front end: the uniqueness filter excludes the target's own
primary key. -/
def profileEmailErrors (store : Store) (selfPk : Nat) (v : PyStr) : List String :=
  match emailFieldErrors v with
  | [] =>
      if store.emailExistsExcluding (pyStrip v) selfPk then
        ["A user with that email already exists."]
      else []
  | es => es

structure ValidatedProfile where
  email : Option PyStr
  first_name : Option PyStr
  last_name : Option PyStr
  deriving Repr, DecidableEq

/-- The `email` key of a profile update: absent is fine for `PATCH`
(`partial=True`) but an error for `PUT` (the non-optional model field is then
required); when present it runs the field front end and the
self-excluding uniqueness check. -/
def profileInputEmailErrors (store : Store) (selfPk : Nat) (e : Option PyStr)
    (patchMode : Bool) : List String :=
  match e with
  | none => if patchMode then [] else ["This field is required."]
  | some v => profileEmailErrors store selfPk v

/-- `UserProfileSerializer.is_valid()` on an update.  `patchMode = false`
models `PUT` (`partial=False`); `patchMode = true` models `PATCH`. -/
def profileValidate (store : Store) (current : Identity) (inp : ProfileUpdateInput)
    (patchMode : Bool) : Except FieldErrors ValidatedProfile :=
  if (profileInputEmailErrors store current.pk inp.email patchMode).isEmpty &&
      (optNameErrors inp.first_name).isEmpty && (optNameErrors inp.last_name).isEmpty then
    .ok ⟨inp.email.map pyStrip, inp.first_name.map pyStrip, inp.last_name.map pyStrip⟩
  else
    .error { email := profileInputEmailErrors store current.pk inp.email patchMode,
             first_name := optNameErrors inp.first_name,
             last_name := optNameErrors inp.last_name }

/-- `ModelSerializer.update`: `setattr` on the instance for each key present in
`validated_data`, leaving every other attribute untouched. -/
def applyUpdate (u : Identity) (v : ValidatedProfile) : Identity :=
  { u with
    email := v.email.getD u.email
    first_name := match v.first_name with | none => u.first_name | some f => some f
    last_name := match v.last_name with | none => u.last_name | some l => some l }

/-- HTTP outcome of `PUT`/`PATCH /profile`. -/
inductive ProfileResult where
  | ok (user : Identity)
  | badRequest (errors : FieldErrors)
  | serverError
  deriving Repr, DecidableEq

/-- Persisting the mutated row: replace the record with the same primary
key. -/
def Store.updateUser (s : Store) (u' : Identity) : Store :=
  ⟨s.users.map (fun v => if v.pk = u'.pk then u' else v), s.nextPk⟩

/-- `UserProfileView.put` / `UserProfileView.patch` (views.py lines 93-115):
validate against the authenticated user's own record, then save.  The storage
unique constraint still guards the saved row; a conflict would surface as an
uncaught `IntegrityError`. -/
def profileUpdate (store : Store) (current : Identity) (inp : ProfileUpdateInput)
    (patchMode : Bool) : ProfileResult × Store :=
  match profileValidate store current inp patchMode with
  | .error errs => (.badRequest errs, store)
  | .ok v =>
      if store.users.any (fun w =>
          decide (w.pk ≠ (applyUpdate current v).pk) &&
          decide (w.email = (applyUpdate current v).email)) then
        (.serverError, store)
      else (.ok (applyUpdate current v), store.updateUser (applyUpdate current v))

/-! ## Shape lemmas for the operations -/

theorem create_user_ok {s : Store} {e p : PyStr} {fn ln : Option PyStr}
    {u : Identity} {s' : Store}
    (h : create_user s (some e) (some p) fn ln = .ok (u, s')) :
    s.emailExists (storedEmail e) = false ∧
    u = ⟨s.nextPk, storedEmail e, hashPassword p, truncName fn, truncName ln,
      true, false, false⟩ ∧
    s' = ⟨s.users ++ [u], s.nextPk + 1⟩ := by
  simp only [create_user, _create_user, Store.insert] at h
  by_cases he : e.isEmpty
  · rw [if_pos he] at h
    exact absurd h (by simp)
  · rw [if_neg he] at h
    by_cases hp : p.isEmpty
    · rw [if_pos hp] at h
      exact absurd h (by simp)
    · rw [if_neg hp] at h
      by_cases hex : s.emailExists (storedEmail e)
      · rw [if_pos hex] at h
        exact absurd h (by simp)
      · rw [if_neg hex] at h
        simp only [Except.ok.injEq, Prod.mk.injEq] at h
        obtain ⟨hu, hs⟩ := h
        subst hu
        subst hs
        exact ⟨by simpa using hex, rfl, rfl⟩

theorem registrationValidate_ok {store : Store} {inp : RegistrationInput} {v : ValidatedReg}
    (h : registrationValidate store inp = .ok v) :
    regEmailErrors store inp.email = [] ∧
    regPasswordErrors inp.password = [] ∧
    confirmFieldErrors inp.password_confirm = [] ∧
    optNameErrors inp.first_name = [] ∧
    optNameErrors inp.last_name = [] ∧
    pyStrip inp.password = pyStrip inp.password_confirm ∧
    v = ⟨pyStrip inp.email, pyStrip inp.password,
      inp.first_name.map pyStrip, inp.last_name.map pyStrip⟩ := by
  unfold registrationValidate at h
  by_cases hc : (regEmailErrors store inp.email).isEmpty &&
      (regPasswordErrors inp.password).isEmpty &&
      (confirmFieldErrors inp.password_confirm).isEmpty &&
      (optNameErrors inp.first_name).isEmpty && (optNameErrors inp.last_name).isEmpty
  · rw [if_pos hc] at h
    simp only [Bool.and_eq_true, List.isEmpty_iff] at hc
    obtain ⟨⟨⟨⟨h1, h2⟩, h3⟩, h4⟩, h5⟩ := hc
    by_cases hm : pyStrip inp.password ≠ pyStrip inp.password_confirm
    · rw [if_pos hm] at h
      exact absurd h (by simp)
    · rw [if_neg hm] at h
      simp only [Except.ok.injEq] at h
      exact ⟨h1, h2, h3, h4, h5, not_not.mp hm, h.symm⟩
  · rw [if_neg hc] at h
    exact absurd h (by simp)

theorem registrationValidate_error_of_password {store : Store} {inp : RegistrationInput}
    (h : (regPasswordErrors inp.password).isEmpty = false) :
    registrationValidate store inp =
      .error ⟨regEmailErrors store inp.email, regPasswordErrors inp.password,
        confirmFieldErrors inp.password_confirm, optNameErrors inp.first_name,
        optNameErrors inp.last_name, []⟩ := by
  unfold registrationValidate
  rw [if_neg]
  simp [h]

theorem register_cases (store : Store) (inp : RegistrationInput) :
    (∃ errs, register store inp = (.badRequest errs, store)) ∨
    (∃ e, register store inp = (.serverError e, store)) ∨
    (∃ u, (register store inp).1 = .created u ∧
      (register store inp).2.users = store.users ++ [u] ∧
      (register store inp).2.nextPk = store.nextPk + 1) := by
  unfold register
  split
  · exact Or.inl ⟨_, rfl⟩
  · split
    · exact Or.inr (Or.inl ⟨_, rfl⟩)
    · rename_i v hv u s' hc
      obtain ⟨_, _, hs⟩ := create_user_ok hc
      subst hs
      exact Or.inr (Or.inr ⟨u, rfl, rfl, rfl⟩)

/-! ## C10 -/

/-- C10: `create_user` (and `_create_user`) with an empty or missing
(`None`) email returns a `ValueError` before any storage access, and likewise
an empty or missing password returns a `ValueError`; no store is produced on
these paths. -/
theorem C10_create_user_value_error (s : Store) (e p : PyStr)
    (fn ln : Option PyStr) (he : e ≠ []) :
    create_user s none (some p) fn ln =
      .error (.valueError "The Email field must be set") ∧
    create_user s (some []) (some p) fn ln =
      .error (.valueError "The Email field must be set") ∧
    create_user s (some e) none fn ln =
      .error (.valueError "The Password field must be set") ∧
    create_user s (some e) (some []) fn ln =
      .error (.valueError "The Password field must be set") ∧
    _create_user s (some []) (some p) fn ln true false false =
      .error (.valueError "The Email field must be set") := by
  have hne : e.isEmpty = false := by
    cases e with
    | nil => exact absurd rfl he
    | cons a as => rfl
  refine ⟨rfl, rfl, ?_, ?_, rfl⟩ <;>
    simp [create_user, _create_user, hne]

/-- Witness for C10 at concrete inputs. -/
theorem C10_create_user_value_error_witness :
    create_user emptyStore (some (pystr "x@y.com")) none none none =
      .error (.valueError "The Password field must be set") :=
  (C10_create_user_value_error emptyStore (pystr "x@y.com") (pystr "TestPass123!")
    none none (by decide)).2.2.1

theorem registrationValidate_error_of_first_name (store : Store) {inp : RegistrationInput}
    (h : (optNameErrors inp.first_name).isEmpty = false) :
    registrationValidate store inp =
      .error ⟨regEmailErrors store inp.email, regPasswordErrors inp.password,
        confirmFieldErrors inp.password_confirm, optNameErrors inp.first_name,
        optNameErrors inp.last_name, []⟩ := by
  unfold registrationValidate
  rw [if_neg]
  simp [h]

theorem registrationValidate_error_of_last_name (store : Store) {inp : RegistrationInput}
    (h : (optNameErrors inp.last_name).isEmpty = false) :
    registrationValidate store inp =
      .error ⟨regEmailErrors store inp.email, regPasswordErrors inp.password,
        confirmFieldErrors inp.password_confirm, optNameErrors inp.first_name,
        optNameErrors inp.last_name, []⟩ := by
  unfold registrationValidate
  rw [if_neg]
  simp [h]

theorem optNameErrors_long {n : PyStr} (h : 30 < (pyStrip n).length) :
    optNameErrors (some n) = ["Ensure this field has no more than 30 characters."] := by
  simp only [optNameErrors, nameFieldErrors]
  rw [if_pos h]

/-! ## C4 -/

/-- C4 as stated is false on the code: registering with a 50-character first
name does not succeed with truncation — the serializer field generated from
`CharField(max_length=30)` rejects it with a `first_name` error and no
identity is created. -/
theorem C4_counterexample :
    register emptyStore
        { email := pystr "test@example.com", password := pystr "TestPass123!",
          password_confirm := pystr "TestPass123!",
          first_name := some (List.replicate 50 'A') } =
      (.badRequest { first_name := ["Ensure this field has no more than 30 characters."] },
        emptyStore) := by
  rfl

/-- C4 amended: a registration whose trimmed first name OR last name exceeds
30 characters fails with a `max_length` field error keyed to that name field,
leaving the store unchanged; the silent 30-character truncation of either
name exists only in direct creation through the user manager
(`create_user`). -/
theorem C4_amended (store : Store) (inp : RegistrationInput) :
    (∀ fn, inp.first_name = some fn → 30 < (pyStrip fn).length →
      register store inp =
        (.badRequest ⟨regEmailErrors store inp.email, regPasswordErrors inp.password,
          confirmFieldErrors inp.password_confirm,
          ["Ensure this field has no more than 30 characters."],
          optNameErrors inp.last_name, []⟩, store)) ∧
    (∀ ln, inp.last_name = some ln → 30 < (pyStrip ln).length →
      register store inp =
        (.badRequest ⟨regEmailErrors store inp.email, regPasswordErrors inp.password,
          confirmFieldErrors inp.password_confirm, optNameErrors inp.first_name,
          ["Ensure this field has no more than 30 characters."], []⟩, store)) ∧
    (∀ (s : Store) (e p f : PyStr) (l : Option PyStr) (u : Identity) (s' : Store),
      create_user s (some e) (some p) (some f) l = .ok (u, s') →
      u.first_name = some (f.take 30)) ∧
    (∀ (s : Store) (e p l : PyStr) (f : Option PyStr) (u : Identity) (s' : Store),
      create_user s (some e) (some p) f (some l) = .ok (u, s') →
      u.last_name = some (l.take 30)) := by
  refine ⟨?_, ?_, ?_, ?_⟩
  · intro fn hfn hlong
    have h1 : optNameErrors inp.first_name =
        ["Ensure this field has no more than 30 characters."] := by
      rw [hfn]
      exact optNameErrors_long hlong
    have h2 : (optNameErrors inp.first_name).isEmpty = false := by
      rw [h1]
      rfl
    have hval := registrationValidate_error_of_first_name store h2
    unfold register
    rw [hval, h1]
  · intro ln hln hlong
    have h1 : optNameErrors inp.last_name =
        ["Ensure this field has no more than 30 characters."] := by
      rw [hln]
      exact optNameErrors_long hlong
    have h2 : (optNameErrors inp.last_name).isEmpty = false := by
      rw [h1]
      rfl
    have hval := registrationValidate_error_of_last_name store h2
    unfold register
    rw [hval, h1]
  · intro s e p f l u s' h
    obtain ⟨_, hu, _⟩ := create_user_ok h
    rw [hu]
    show truncName (some f) = some (f.take 30)
    simp only [truncName]
    by_cases hf : f.isEmpty
    · rw [if_pos hf]
      have hnil : f = [] := List.isEmpty_iff.mp hf
      subst hnil
      rfl
    · rw [if_neg hf]
  · intro s e p l f u s' h
    obtain ⟨_, hu, _⟩ := create_user_ok h
    rw [hu]
    show truncName (some l) = some (l.take 30)
    simp only [truncName]
    by_cases hl : l.isEmpty
    · rw [if_pos hl]
      have hnil : l = [] := List.isEmpty_iff.mp hl
      subst hnil
      rfl
    · rw [if_neg hl]

/-- Witness for C4's amended statement: a 31-character first name and a
31-character last name are each rejected at registration, and the manager
truncates a 50-character last name to 30. -/
theorem C4_amended_witness :
    register emptyStore
        { email := pystr "reg@example.com", password := pystr "TestPass123!",
          password_confirm := pystr "TestPass123!",
          first_name := some (List.replicate 31 'B') } =
      (.badRequest ⟨regEmailErrors emptyStore (pystr "reg@example.com"),
        regPasswordErrors (pystr "TestPass123!"), confirmFieldErrors (pystr "TestPass123!"),
        ["Ensure this field has no more than 30 characters."], optNameErrors none, []⟩,
        emptyStore) ∧
    register emptyStore
        { email := pystr "reg@example.com", password := pystr "TestPass123!",
          password_confirm := pystr "TestPass123!",
          last_name := some (List.replicate 31 'C') } =
      (.badRequest ⟨regEmailErrors emptyStore (pystr "reg@example.com"),
        regPasswordErrors (pystr "TestPass123!"), confirmFieldErrors (pystr "TestPass123!"),
        optNameErrors none,
        ["Ensure this field has no more than 30 characters."], []⟩,
        emptyStore) ∧
    (⟨0, pystr "x@y.com", pystr "TestPass123!", none, some (List.replicate 30 'A'),
      true, false, false⟩ : Identity).last_name = some ((List.replicate 50 'A').take 30) :=
  ⟨(C4_amended emptyStore
      { email := pystr "reg@example.com", password := pystr "TestPass123!",
        password_confirm := pystr "TestPass123!",
        first_name := some (List.replicate 31 'B') }).1
    (List.replicate 31 'B') rfl (by decide),
   (C4_amended emptyStore
      { email := pystr "reg@example.com", password := pystr "TestPass123!",
        password_confirm := pystr "TestPass123!",
        last_name := some (List.replicate 31 'C') }).2.1
    (List.replicate 31 'C') rfl (by decide),
   (C4_amended emptyStore
      { email := pystr "reg@example.com", password := pystr "TestPass123!",
        password_confirm := pystr "TestPass123!" }).2.2.2
    emptyStore (pystr "x@y.com") (pystr "TestPass123!") (List.replicate 50 'A') none
    ⟨0, pystr "x@y.com", pystr "TestPass123!", none, some (List.replicate 30 'A'),
      true, false, false⟩
    ⟨[⟨0, pystr "x@y.com", pystr "TestPass123!", none, some (List.replicate 30 'A'),
      true, false, false⟩], 1⟩
    rfl⟩

/-! ## C1 -/

/-- The number of password strength rules (length ≥ 8, uppercase, lowercase,
digit) that a password violates. -/
def numRuleViolations (p : PyStr) : Nat :=
  (if p.length < 8 then 1 else 0) + (if hasUpper p then 0 else 1) +
    (if hasLower p then 0 else 1) + (if hasDigit p then 0 else 1)

theorem validate_password_core (q : PyStr) (h : 2 ≤ numRuleViolations q) :
    (if q.isEmpty then ["This field may not be blank."]
     else if q.length < 8 then ["Ensure this field has at least 8 characters."]
     else validate_password q).length = 1 := by
  by_cases he : q.isEmpty
  · rw [if_pos he]
    rfl
  · rw [if_neg he]
    by_cases hlen : q.length < 8
    · rw [if_pos hlen]
      rfl
    · rw [if_neg hlen]
      unfold validate_password
      by_cases hu : hasUpper q
      · by_cases hl : hasLower q
        · by_cases hd : hasDigit q
          · unfold numRuleViolations at h
            simp [hlen, hu, hl, hd] at h
          · simp [hlen, hu, hl, hd]
        · simp [hlen, hu, hl]
      · simp [hlen, hu]

/-- C1 as stated is false on the code: the password "abcdefgh" violates both
the uppercase rule and the digit rule, yet the error list carries only the
first (uppercase) message — the digit violation goes unreported. -/
theorem C1_counterexample :
    registrationValidate emptyStore
        { email := pystr "user@example.com", password := pystr "abcdefgh",
          password_confirm := pystr "abcdefgh" } =
      .error { password := ["Password must contain at least one uppercase letter."] } ∧
    hasUpper (pystr "abcdefgh") = false ∧ hasDigit (pystr "abcdefgh") = false := by
  refine ⟨?_, by decide, by decide⟩
  rfl

/-- C1 amended: when the password violates more than one strength rule,
registration validation still fails, but the `password` error list contains
exactly ONE message — the first violated rule in source order (length,
uppercase, lowercase, digit) — not every violated rule. -/
theorem C1_amended (store : Store) (inp : RegistrationInput)
    (h : 2 ≤ numRuleViolations (pyStrip inp.password)) :
    (regPasswordErrors inp.password).length = 1 ∧
    registrationValidate store inp =
      .error ⟨regEmailErrors store inp.email, regPasswordErrors inp.password,
        confirmFieldErrors inp.password_confirm, optNameErrors inp.first_name,
        optNameErrors inp.last_name, []⟩ := by
  have h1 : (regPasswordErrors inp.password).length = 1 := by
    unfold regPasswordErrors
    exact validate_password_core (pyStrip inp.password) h
  have h2 : (regPasswordErrors inp.password).isEmpty = false := by
    cases hx : regPasswordErrors inp.password with
    | nil => rw [hx] at h1; simp at h1
    | cons a as => rfl
  exact ⟨h1, registrationValidate_error_of_password h2⟩

/-- Witness for C1's amended statement: "abcdefgh" violates two rules. -/
theorem C1_amended_witness :
    (regPasswordErrors (pystr "abcdefgh")).length = 1 :=
  (C1_amended emptyStore
    { email := pystr "user@example.com", password := pystr "abcdefgh",
      password_confirm := pystr "abcdefgh" } (by decide)).1

/-! ## C7 -/

/-- C7: registration is atomic.  Every validation failure (400) and every
escaped storage exception leaves the store unchanged — zero identities are
created and the response carries no tokens; a success appends exactly one
identity.  In particular a password/confirmation mismatch (with the other
fields valid) fails with the `PasswordMismatch` error keyed to
`password_confirm`, creating nothing. -/
theorem C7_registration_atomicity (store : Store) (inp : RegistrationInput) :
    (∀ errs, (register store inp).1 = .badRequest errs → (register store inp).2 = store) ∧
    (∀ e, (register store inp).1 = .serverError e → (register store inp).2 = store) ∧
    (∀ u, (register store inp).1 = .created u →
      (register store inp).2.users = store.users ++ [u]) ∧
    (regEmailErrors store inp.email = [] → regPasswordErrors inp.password = [] →
      confirmFieldErrors inp.password_confirm = [] → optNameErrors inp.first_name = [] →
      optNameErrors inp.last_name = [] →
      pyStrip inp.password ≠ pyStrip inp.password_confirm →
      register store inp =
        (.badRequest { password_confirm := ["Passwords do not match."] }, store)) := by
  refine ⟨?_, ?_, ?_, ?_⟩
  · intro errs h
    rcases register_cases store inp with ⟨e2, heq⟩ | ⟨e2, heq⟩ | ⟨u, h1, h2, h3⟩
    · rw [heq]
    · rw [heq] at h
      simp at h
    · rw [h1] at h
      simp at h
  · intro e h
    rcases register_cases store inp with ⟨e2, heq⟩ | ⟨e2, heq⟩ | ⟨u, h1, h2, h3⟩
    · rw [heq] at h
      simp at h
    · rw [heq]
    · rw [h1] at h
      simp at h
  · intro u h
    rcases register_cases store inp with ⟨e2, heq⟩ | ⟨e2, heq⟩ | ⟨u', h1, h2, h3⟩
    · rw [heq] at h
      simp at h
    · rw [heq] at h
      simp at h
    · rw [h1] at h
      simp only [RegisterResult.created.injEq] at h
      rw [← h]
      exact h2
  · intro h1 h2 h3 h4 h5 hne
    have hval : registrationValidate store inp =
        .error { password_confirm := ["Passwords do not match."] } := by
      unfold registrationValidate
      rw [h1, h2, h3, h4, h5]
      simp only [List.isEmpty_nil, Bool.and_self, if_true]
      rw [if_pos hne]
    unfold register
    rw [hval]

/-- Witness for C7 at a concrete mismatching confirmation. -/
theorem C7_registration_atomicity_witness :
    register emptyStore
        { email := pystr "test@example.com", password := pystr "TestPass123!",
          password_confirm := pystr "Different123!" } =
      (.badRequest { password_confirm := ["Passwords do not match."] }, emptyStore) :=
  (C7_registration_atomicity emptyStore
    { email := pystr "test@example.com", password := pystr "TestPass123!",
      password_confirm := pystr "Different123!" }).2.2.2
    rfl rfl rfl rfl rfl (by decide)

/-! ## Login lemmas, C3 and C5 -/

theorem emailFieldErrors_nil {v : PyStr} (h : emailFieldErrors v = []) :
    (pyStrip v).isEmpty = false ∧ emailFormatValid (pyStrip v) = true := by
  unfold emailFieldErrors at h
  by_cases h1 : (pyStrip v).isEmpty
  · rw [if_pos h1] at h
    simp at h
  · rw [if_neg h1] at h
    by_cases h2 : emailFormatValid (pyStrip v)
    · exact ⟨by simpa using h1, h2⟩
    · rw [if_pos (by simp [h2])] at h
      simp at h

theorem loginPasswordFieldErrors_nil {v : PyStr} (h : loginPasswordFieldErrors v = []) :
    (pyStrip v).isEmpty = false := by
  unfold loginPasswordFieldErrors at h
  by_cases h1 : (pyStrip v).isEmpty
  · rw [if_pos h1] at h
    simp at h
  · simpa using h1

theorem loginValidate_auth {store : Store} {inp : LoginInput}
    (hf : emailFieldErrors inp.email = [])
    (hp : loginPasswordFieldErrors inp.password = []) :
    loginValidate store inp =
      match authenticate store (pyStrip inp.email) (pyStrip inp.password) with
      | none => .error { non_field_errors := ["Invalid email or password."] }
      | some u =>
          if !u.is_active then .error { non_field_errors := ["User account is disabled."] }
          else .ok u := by
  have he := (emailFieldErrors_nil hf).1
  have hpw := loginPasswordFieldErrors_nil hp
  unfold loginValidate
  rw [hf, hp]
  simp [he, hpw]

/-- C3: a login with an unknown email and a login with a known email but a
wrong password produce the IDENTICAL generic error payload
(`non_field_errors = ["Invalid email or password."]`): nothing observable
distinguishes "no such user" from "wrong password". -/
theorem C3_login_enumeration_resistance (store : Store) (inp1 inp2 : LoginInput)
    (u : Identity)
    (hf1 : emailFieldErrors inp1.email = [])
    (hp1 : loginPasswordFieldErrors inp1.password = [])
    (hf2 : emailFieldErrors inp2.email = [])
    (hp2 : loginPasswordFieldErrors inp2.password = [])
    (habs : store.users.find?
        (fun w => decide (pyLower w.email = pyLower (pyStrip inp1.email))) = none)
    (hex : store.users.find?
        (fun w => decide (pyLower w.email = pyLower (pyStrip inp2.email))) = some u)
    (hwrong : check_password (pyStrip inp2.password) u = false) :
    loginValidate store inp1 = loginValidate store inp2 ∧
    loginValidate store inp1 =
      .error { non_field_errors := ["Invalid email or password."] } := by
  have ha1 : authenticate store (pyStrip inp1.email) (pyStrip inp1.password) = none := by
    unfold authenticate
    rw [habs]
  have ha2 : authenticate store (pyStrip inp2.email) (pyStrip inp2.password) = none := by
    unfold authenticate
    rw [hex]
    simp [hwrong]
  rw [loginValidate_auth hf1 hp1, loginValidate_auth hf2 hp2, ha1, ha2]
  exact ⟨rfl, rfl⟩

/-- C5: when the email matches an existing identity, the password is correct,
but the activation flag is false, login fails with the `AccountDisabled`
payload, which is distinguishable from the `InvalidCredentials` payload. -/
theorem C5_disabled_account (store : Store) (inp : LoginInput) (u : Identity)
    (hf : emailFieldErrors inp.email = [])
    (hp : loginPasswordFieldErrors inp.password = [])
    (hfind : store.users.find?
        (fun w => decide (pyLower w.email = pyLower (pyStrip inp.email))) = some u)
    (hpw : check_password (pyStrip inp.password) u = true)
    (hinactive : u.is_active = false) :
    loginValidate store inp =
      .error { non_field_errors := ["User account is disabled."] } ∧
    ({ non_field_errors := ["User account is disabled."] } : FieldErrors) ≠
      { non_field_errors := ["Invalid email or password."] } := by
  refine ⟨?_, by decide⟩
  have ha : authenticate store (pyStrip inp.email) (pyStrip inp.password) = some u := by
    unfold authenticate
    rw [hfind]
    simp [hpw]
  rw [loginValidate_auth hf hp, ha]
  simp [hinactive]

/-! Sample data used by the concrete witnesses. -/

def uActive : Identity :=
  ⟨0, pystr "usera@example.com", pystr "TestPass123!",
    some (pystr "User"), some (pystr "A"), true, false, false⟩

def uDisabled : Identity :=
  ⟨1, pystr "off@example.com", pystr "OffPass123!", none, none, false, false, false⟩

def sampleStore : Store := ⟨[uActive, uDisabled], 2⟩

/-- Witness for C3: unknown email vs. wrong password on a concrete store. -/
theorem C3_login_enumeration_resistance_witness :
    loginValidate sampleStore
        { email := pystr "nosuch@example.com", password := pystr "TestPass123!" } =
      loginValidate sampleStore
        { email := pystr "usera@example.com", password := pystr "Wrong123!" } :=
  (C3_login_enumeration_resistance sampleStore
    { email := pystr "nosuch@example.com", password := pystr "TestPass123!" }
    { email := pystr "usera@example.com", password := pystr "Wrong123!" }
    uActive rfl rfl rfl rfl (by decide) (by decide) (by decide)).1

/-- Witness for C5 at a concrete disabled account. -/
theorem C5_disabled_account_witness :
    loginValidate sampleStore
        { email := pystr "off@example.com", password := pystr "OffPass123!" } =
      .error { non_field_errors := ["User account is disabled."] } :=
  (C5_disabled_account sampleStore
    { email := pystr "off@example.com", password := pystr "OffPass123!" }
    uDisabled rfl rfl (by decide) (by decide) rfl).1

/-! ## Profile-update lemmas, C8 and C9 -/

theorem pairwise_key_eq {β : Type} {f : Identity → β} {l : List Identity}
    (hp : l.Pairwise (fun a b => f a ≠ f b)) {a b : Identity}
    (ha : a ∈ l) (hb : b ∈ l) (hf : f a = f b) : a = b := by
  induction l with
  | nil => cases ha
  | cons x xs ih =>
      rw [List.pairwise_cons] at hp
      rcases List.mem_cons.mp ha with h1 | h1 <;> rcases List.mem_cons.mp hb with h2 | h2
      · rw [h1, h2]
      · subst h1
        exact absurd hf (hp.1 b h2)
      · subst h2
        exact absurd hf.symm (hp.1 a h1)
      · exact ih hp.2 h1 h2

theorem map_update_id {l : List Identity} {u : Identity}
    (h : ∀ v ∈ l, v.pk ≠ u.pk) :
    l.map (fun v => if v.pk = u.pk then u else v) = l := by
  induction l with
  | nil => rfl
  | cons x xs ih =>
      simp only [List.map_cons]
      rw [if_neg (h x (List.mem_cons_self x xs)),
        ih (fun v hv => h v (List.mem_cons_of_mem x hv))]

theorem map_update_self {l : List Identity} {u : Identity} (hmem : u ∈ l)
    (hpk : l.Pairwise (fun a b => a.pk ≠ b.pk)) :
    l.map (fun v => if v.pk = u.pk then u else v) = l := by
  induction l with
  | nil => rfl
  | cons x xs ih =>
      rw [List.pairwise_cons] at hpk
      simp only [List.map_cons]
      rcases List.mem_cons.mp hmem with h1 | h1
      · subst h1
        rw [if_pos rfl, map_update_id (fun v hv => (hpk.1 v hv).symm)]
      · rw [if_neg (hpk.1 u h1), ih h1 hpk.2]

theorem updateUser_self {store : Store} {u : Identity} (hmem : u ∈ store.users)
    (hpk : store.users.Pairwise (fun a b => a.pk ≠ b.pk)) :
    store.updateUser u = store := by
  cases store with
  | mk us npk =>
      simp only [Store.updateUser]
      rw [map_update_self hmem hpk]

/-- No other row collides with `u`'s email (the update-save uniqueness
guard is vacuous for a store with pairwise-distinct emails). -/
theorem no_conflicting_row {store : Store} {u : Identity}
    (hmem : u ∈ store.users)
    (hem : store.users.Pairwise (fun a b => a.email ≠ b.email)) :
    store.users.any (fun w => decide (w.pk ≠ u.pk) && decide (w.email = u.email)) =
      false := by
  rw [List.any_eq_false]
  intro w hw
  simp only [Bool.and_eq_true, decide_eq_true_eq, not_and]
  intro hwpk hweq
  have hwu : w = u := pairwise_key_eq hem hw hmem hweq
  rw [hwu] at hwpk
  exact hwpk rfl

theorem profileUpdate_error_case {store : Store} {cu : Identity}
    {inp : ProfileUpdateInput} {pm : Bool} {errs : FieldErrors}
    (hval : profileValidate store cu inp pm = .error errs) :
    profileUpdate store cu inp pm = (.badRequest errs, store) := by
  unfold profileUpdate
  split
  · rename_i errs' heq
    rw [hval] at heq
    simp only [Except.error.injEq] at heq
    rw [heq]
  · rename_i v heq
    rw [hval] at heq
    exact absurd heq (by simp)

theorem profileUpdate_ok_case {store : Store} {cu : Identity}
    {inp : ProfileUpdateInput} {pm : Bool} {v : ValidatedProfile}
    (hval : profileValidate store cu inp pm = .ok v)
    (hg : store.users.any (fun w =>
        decide (w.pk ≠ (applyUpdate cu v).pk) &&
        decide (w.email = (applyUpdate cu v).email)) = false) :
    profileUpdate store cu inp pm =
      (.ok (applyUpdate cu v), store.updateUser (applyUpdate cu v)) := by
  unfold profileUpdate
  split
  · rename_i errs' heq
    rw [hval] at heq
    exact absurd heq (by simp)
  · rename_i v' heq
    rw [hval] at heq
    simp only [Except.ok.injEq] at heq
    subst heq
    rw [hg]
    simp

/-- C8: a profile update that re-submits the caller's own current email never
triggers the duplicate-email error — the uniqueness filter excludes the
caller's own row — and with the other fields absent the update succeeds,
leaving the store unchanged.  Holds for both `PUT` and `PATCH`. -/
theorem C8_self_email_resubmission (store : Store) (u : Identity)
    (inp : ProfileUpdateInput) (patchMode : Bool)
    (hmem : u ∈ store.users)
    (hpk : store.users.Pairwise (fun a b => a.pk ≠ b.pk))
    (hem : store.users.Pairwise (fun a b => a.email ≠ b.email))
    (hstr : ∀ w ∈ store.users, pyStrip w.email = w.email)
    (hemail : inp.email = some u.email) :
    store.emailExistsExcluding (pyStrip u.email) u.pk = false ∧
    (emailFieldErrors u.email = [] → inp.first_name = none → inp.last_name = none →
      profileUpdate store u inp patchMode = (.ok u, store)) := by
  have hstru : pyStrip u.email = u.email := hstr u hmem
  have h1 : store.emailExistsExcluding (pyStrip u.email) u.pk = false := by
    rw [hstru]
    unfold Store.emailExistsExcluding
    rw [List.any_eq_false]
    intro w hw
    simp only [Bool.and_eq_true, decide_eq_true_eq, not_and]
    intro hweq hwpk
    have hwu : w = u := pairwise_key_eq hem hw hmem hweq
    rw [hwu] at hwpk
    exact hwpk rfl
  refine ⟨h1, ?_⟩
  intro hfmt hfn hln
  have he : profileEmailErrors store u.pk u.email = [] := by
    unfold profileEmailErrors
    rw [hfmt]
    simp [h1]
  have hval : profileValidate store u inp patchMode =
      .ok ⟨some (pyStrip u.email), none, none⟩ := by
    unfold profileValidate
    rw [hemail, hfn, hln]
    simp [he, optNameErrors, profileInputEmailErrors]
  have happly : applyUpdate u ⟨some (pyStrip u.email), none, none⟩ = u := by
    unfold applyUpdate
    rw [hstru]
    rfl
  have hg : store.users.any (fun w =>
      decide (w.pk ≠ (applyUpdate u ⟨some (pyStrip u.email), none, none⟩).pk) &&
      decide (w.email = (applyUpdate u ⟨some (pyStrip u.email), none, none⟩).email)) =
      false := by
    rw [happly]
    exact no_conflicting_row hmem hem
  have hupd := profileUpdate_ok_case hval hg
  rw [happly] at hupd
  rw [hupd, updateUser_self hmem hpk]

/-- Witness for C8: re-submitting one's own email on a concrete store. -/
theorem C8_self_email_resubmission_witness :
    profileUpdate sampleStore uActive
        { email := some (pystr "usera@example.com") } true = (.ok uActive, sampleStore) :=
  (C8_self_email_resubmission sampleStore uActive
    { email := some (pystr "usera@example.com") } true
    (by decide) (by decide) (by decide) (by decide) rfl).2 rfl rfl rfl

/-- C9: a `PATCH` whose payload contains only `first_name` leaves the stored
`last_name` and `email` exactly as they were — on failure the store is
untouched, and on success only the caller's row changes, with its `email` and
`last_name` equal to their previous values. -/
theorem C9_patch_frame (store : Store) (u : Identity) (fn : PyStr)
    (hmem : u ∈ store.users)
    (hpk : store.users.Pairwise (fun a b => a.pk ≠ b.pk))
    (hem : store.users.Pairwise (fun a b => a.email ≠ b.email)) :
    (∀ errs, (profileUpdate store u ⟨none, some fn, none⟩ true).1 = .badRequest errs →
      (profileUpdate store u ⟨none, some fn, none⟩ true).2 = store) ∧
    (∀ u', (profileUpdate store u ⟨none, some fn, none⟩ true).1 = .ok u' →
      u'.email = u.email ∧ u'.last_name = u.last_name ∧
      (profileUpdate store u ⟨none, some fn, none⟩ true).2.users =
        store.users.map (fun w => if w.pk = u.pk then u' else w)) := by
  by_cases hn : 30 < (pyStrip fn).length
  · have hval : profileValidate store u ⟨none, some fn, none⟩ true =
        .error { first_name := ["Ensure this field has no more than 30 characters."] } := by
      unfold profileValidate
      simp [optNameErrors, nameFieldErrors, hn, profileInputEmailErrors]
    have hupd := profileUpdate_error_case hval
    constructor
    · intro errs _
      rw [hupd]
    · intro u' h
      rw [hupd] at h
      simp at h
  · have hval : profileValidate store u ⟨none, some fn, none⟩ true =
        .ok ⟨none, some (pyStrip fn), none⟩ := by
      unfold profileValidate
      simp [optNameErrors, nameFieldErrors, hn, profileInputEmailErrors]
    have ha : applyUpdate u ⟨none, some (pyStrip fn), none⟩ =
        { u with first_name := some (pyStrip fn) } := rfl
    have hg : store.users.any (fun w =>
        decide (w.pk ≠ (applyUpdate u ⟨none, some (pyStrip fn), none⟩).pk) &&
        decide (w.email = (applyUpdate u ⟨none, some (pyStrip fn), none⟩).email)) =
        false := by
      have hpkproj : ({ u with first_name := some (pyStrip fn) } : Identity).pk = u.pk := rfl
      have heproj : ({ u with first_name := some (pyStrip fn) } : Identity).email =
        u.email := rfl
      rw [ha, hpkproj, heproj]
      exact no_conflicting_row hmem hem
    have hupd := profileUpdate_ok_case hval hg
    rw [ha] at hupd
    constructor
    · intro errs h
      rw [hupd] at h
      simp at h
    · intro u' h
      rw [hupd] at h
      simp only [ProfileResult.ok.injEq] at h
      subst h
      refine ⟨rfl, rfl, ?_⟩
      rw [hupd]
      rfl

/-- Witness for C9: patching only the first name on a concrete store. -/
theorem C9_patch_frame_witness :
    ({ uActive with first_name := some (pystr "PartialUpdate") } : Identity).email =
      uActive.email ∧
    ({ uActive with first_name := some (pystr "PartialUpdate") } : Identity).last_name =
      uActive.last_name ∧
    (profileUpdate sampleStore uActive ⟨none, some (pystr "PartialUpdate"), none⟩
        true).2.users =
      sampleStore.users.map (fun w =>
        if w.pk = uActive.pk then { uActive with first_name := some (pystr "PartialUpdate") }
        else w) :=
  (C9_patch_frame sampleStore uActive (pystr "PartialUpdate")
    (by decide) (by decide) (by decide)).2
    { uActive with first_name := some (pystr "PartialUpdate") } (by decide)

/-! ## C2: case-variant duplicate registration -/

theorem storedEmail_pyStrip (x : PyStr) :
    storedEmail (pyStrip x) = pyStrip (pyLower x) := by
  rw [storedEmail_eq, ← pyStrip_pyLower, pyStrip_idem]

theorem emailFieldErrors_lower_congr {a b : PyStr} (h : pyLower a = pyLower b) :
    emailFieldErrors a = emailFieldErrors b := by
  have hstrip : pyLower (pyStrip a) = pyLower (pyStrip b) := by
    rw [← pyStrip_pyLower, ← pyStrip_pyLower, h]
  have hempty : (pyStrip a).isEmpty = (pyStrip b).isEmpty := by
    rw [← isEmpty_map Char.toLower (pyStrip a), ← isEmpty_map Char.toLower (pyStrip b)]
    exact congrArg List.isEmpty hstrip
  have hfmt : emailFormatValid (pyStrip a) = emailFormatValid (pyStrip b) := by
    rw [← emailFormatValid_pyLower (pyStrip a), ← emailFormatValid_pyLower (pyStrip b)]
    exact congrArg emailFormatValid hstrip
  unfold emailFieldErrors
  rw [hempty, hfmt]

theorem regPasswordErrors_nil {v : PyStr} (h : regPasswordErrors v = []) :
    (pyStrip v).isEmpty = false := by
  unfold regPasswordErrors at h
  by_cases h1 : (pyStrip v).isEmpty
  · rw [if_pos h1] at h
    simp at h
  · simpa using h1

theorem register_created {store : Store} {inp : RegistrationInput} {u : Identity}
    {s1 : Store} (h : register store inp = (.created u, s1)) :
    ∃ v, registrationValidate store inp = .ok v ∧
      create_user store (some v.email) (some v.password) v.first_name v.last_name =
        .ok (u, s1) := by
  unfold register at h
  split at h
  · exact absurd h (by simp)
  · rename_i v hv
    split at h
    · exact absurd h (by simp)
    · rename_i u' s' hc
      simp only [Prod.mk.injEq, RegisterResult.created.injEq] at h
      obtain ⟨hu, hs⟩ := h
      subst hu
      subst hs
      exact ⟨v, hv, hc⟩

theorem register_eq_of_validate_error {store : Store} {inp : RegistrationInput}
    {errs : FieldErrors} (hval : registrationValidate store inp = .error errs) :
    register store inp = (.badRequest errs, store) := by
  unfold register
  split
  · rename_i errs' heq
    rw [hval] at heq
    simp only [Except.error.injEq] at heq
    rw [heq]
  · rename_i v heq
    rw [hval] at heq
    exact absurd heq (by simp)

theorem register_eq_of_create_error {store : Store} {inp : RegistrationInput}
    {v : ValidatedReg} {r : CreateError}
    (hval : registrationValidate store inp = .ok v)
    (hcr : create_user store (some v.email) (some v.password) v.first_name v.last_name =
      .error r) :
    register store inp = (.serverError r, store) := by
  unfold register
  split
  · rename_i errs heq
    rw [hval] at heq
    exact absurd heq (by simp)
  · rename_i v' heq
    rw [hval] at heq
    simp only [Except.ok.injEq] at heq
    subst heq
    split
    · rename_i e heq2
      rw [hcr] at heq2
      simp only [Except.error.injEq] at heq2
      rw [heq2]
    · rename_i u' s' heq2
      rw [hcr] at heq2
      exact absurd heq2 (by simp)

/-- C2 as stated is false on the code: after registering
"test@example.com", a second registration with "Test@example.com"
(differing only in case) does NOT fail with the duplicate-email validation
error — the case-sensitive `filter(email=value)` check passes, and the
attempt instead dies on the storage unique constraint (`IntegrityError`),
an uncaught server-level failure. -/
theorem C2_counterexample :
    (register emptyStore
        { email := pystr "test@example.com", password := pystr "TestPass123!",
          password_confirm := pystr "TestPass123!" }).1 =
      .created ⟨0, pystr "test@example.com", pystr "TestPass123!", none, none,
        true, false, false⟩ ∧
    register
        (register emptyStore
          { email := pystr "test@example.com", password := pystr "TestPass123!",
            password_confirm := pystr "TestPass123!" }).2
        { email := pystr "Test@example.com", password := pystr "TestPass123!",
          password_confirm := pystr "TestPass123!" } =
      (.serverError .integrityError,
        (register emptyStore
          { email := pystr "test@example.com", password := pystr "TestPass123!",
            password_confirm := pystr "TestPass123!" }).2) := by
  exact ⟨rfl, rfl⟩

/-- C2 amended: after a successful registration of E1, a second registration
whose email E2 differs from E1 only in letter case never creates a second
identity: when E2 (trimmed) exactly equals the stored lowercased email it
fails with the duplicate-email validation error, and otherwise the
case-sensitive duplicate check passes and the attempt is rejected by the
storage unique constraint (`IntegrityError`) — not by a validation error.
The store is unchanged either way.  (`hlowered` says the pre-existing store
rows hold normalised emails, as every registration-created row does.) -/
theorem C2_amended (store : Store) (inp1 : RegistrationInput) (e2 : PyStr)
    (u : Identity) (s1 : Store)
    (hreg : register store inp1 = (.created u, s1))
    (hcase : pyLower e2 = pyLower inp1.email)
    (hlowered : ∀ w ∈ store.users, pyLower w.email = w.email) :
    (register s1 { inp1 with email := e2 }).2 = s1 ∧
    (pyStrip e2 = u.email →
      (register s1 { inp1 with email := e2 }).1 =
        .badRequest { email := ["A user with that email already exists."] }) ∧
    (pyStrip e2 ≠ u.email →
      (register s1 { inp1 with email := e2 }).1 = .serverError .integrityError) := by
  obtain ⟨v, hval1, hcreate⟩ := register_created hreg
  obtain ⟨he0, hpw0, hcf0, hfn0, hln0, hmm0, hv⟩ := registrationValidate_ok hval1
  have hve : v.email = pyStrip inp1.email := by rw [hv]
  have hvp : v.password = pyStrip inp1.password := by rw [hv]
  rw [hve, hvp] at hcreate
  obtain ⟨hex0, hu, hs1eq⟩ := create_user_ok hcreate
  have hue : u.email = pyStrip (pyLower inp1.email) := by
    rw [hu]
    show storedEmail (pyStrip inp1.email) = _
    exact storedEmail_pyStrip inp1.email
  have hE2 : pyStrip (pyLower e2) = u.email := by
    rw [hcase]
    exact hue.symm
  have hs1u : s1.users = store.users ++ [u] := by rw [hs1eq]
  have hfe1 : emailFieldErrors inp1.email = [] := by
    unfold regEmailErrors at he0
    cases hx : emailFieldErrors inp1.email with
    | nil => rfl
    | cons a as =>
        rw [hx] at he0
        exact absurd he0 (by simp)
  have hfe2 : emailFieldErrors e2 = [] := by
    rw [emailFieldErrors_lower_congr hcase]
    exact hfe1
  have hexE : store.emailExists (pyStrip (pyLower inp1.email)) = false := by
    rw [← storedEmail_pyStrip]
    exact hex0
  have hnoE : ∀ w ∈ store.users, w.email ≠ pyStrip (pyLower inp1.email) := by
    intro w hw
    have h2 := hexE
    unfold Store.emailExists at h2
    rw [List.any_eq_false] at h2
    have h3 := h2 w hw
    simpa using h3
  have hproj1 : ({ inp1 with email := e2 } : RegistrationInput).email = e2 := rfl
  have hproj2 : ({ inp1 with email := e2 } : RegistrationInput).password =
    inp1.password := rfl
  have hproj3 : ({ inp1 with email := e2 } : RegistrationInput).password_confirm =
    inp1.password_confirm := rfl
  have hproj4 : ({ inp1 with email := e2 } : RegistrationInput).first_name =
    inp1.first_name := rfl
  have hproj5 : ({ inp1 with email := e2 } : RegistrationInput).last_name =
    inp1.last_name := rfl
  by_cases hca : pyStrip e2 = u.email
  · -- E2 exactly equals the stored email: DuplicateEmail from validation.
    have hdup2 : s1.emailExists (pyStrip e2) = true := by
      unfold Store.emailExists
      rw [hs1u]
      simp [hca]
    have hre2 : regEmailErrors s1 e2 = ["A user with that email already exists."] := by
      unfold regEmailErrors
      rw [hfe2]
      simp [hdup2]
    have hval2 : registrationValidate s1 { inp1 with email := e2 } =
        .error { email := ["A user with that email already exists."] } := by
      unfold registrationValidate
      rw [hproj1, hproj2, hproj3, hproj4, hproj5, hre2, hpw0, hcf0, hfn0, hln0]
      rfl
    have hr := register_eq_of_validate_error hval2
    rw [hr]
    refine ⟨rfl, fun _ => rfl, fun hne => absurd hca hne⟩
  · -- E2 differs from the stored email: validation passes, the insert hits
    -- the unique constraint.
    have hdup2 : s1.emailExists (pyStrip e2) = false := by
      unfold Store.emailExists
      rw [hs1u, List.any_eq_false]
      intro w hw
      simp only [decide_eq_true_eq]
      rcases List.mem_append.mp hw with hw1 | hw1
      · intro hweq
        have hwE : w.email = pyStrip (pyLower inp1.email) := by
          have hl := hlowered w hw1
          rw [← hl, hweq, ← pyStrip_pyLower, hcase]
        exact hnoE w hw1 hwE
      · simp only [List.mem_singleton] at hw1
        subst hw1
        intro hweq
        exact hca hweq.symm
    have hre2 : regEmailErrors s1 e2 = [] := by
      unfold regEmailErrors
      rw [hfe2]
      simp [hdup2]
    have hval2 : registrationValidate s1 { inp1 with email := e2 } =
        .ok ⟨pyStrip e2, pyStrip inp1.password,
          inp1.first_name.map pyStrip, inp1.last_name.map pyStrip⟩ := by
      unfold registrationValidate
      rw [hproj1, hproj2, hproj3, hproj4, hproj5, hre2, hpw0, hcf0, hfn0, hln0]
      simp only [List.isEmpty_nil, Bool.and_self, if_true]
      rw [if_neg (not_not_intro hmm0)]
    have hstored2 : storedEmail (pyStrip e2) = u.email := by
      rw [storedEmail_pyStrip]
      exact hE2
    have hdupX : s1.emailExists (storedEmail (pyStrip e2)) = true := by
      rw [hstored2]
      unfold Store.emailExists
      rw [hs1u]
      simp
    have hpe2 : (pyStrip e2).isEmpty = false := (emailFieldErrors_nil hfe2).1
    have hppw : (pyStrip inp1.password).isEmpty = false := regPasswordErrors_nil hpw0
    have hstrip2 : pyStrip (pyStrip e2) = pyStrip e2 := pyStrip_idem e2
    have hcr : create_user s1 (some (pyStrip e2)) (some (pyStrip inp1.password))
        (inp1.first_name.map pyStrip) (inp1.last_name.map pyStrip) =
        .error .integrityError := by
      simp only [create_user, _create_user, Store.insert]
      rw [if_neg (by simp [hpe2]), if_neg (by simp [hppw]), if_pos hdupX]
    have hr := register_eq_of_create_error hval2 hcr
    rw [hr]
    exact ⟨rfl, fun hcon => absurd hcon hca, fun _ => rfl⟩

/-- Witness for C2's amended statement on a concrete case-variant pair. -/
theorem C2_amended_witness :
    (register
        (register emptyStore
          { email := pystr "test@example.com", password := pystr "TestPass123!",
            password_confirm := pystr "TestPass123!" }).2
        { email := pystr "Test@example.com", password := pystr "TestPass123!",
          password_confirm := pystr "TestPass123!" }).1 =
      .serverError .integrityError :=
  (C2_amended emptyStore
    { email := pystr "test@example.com", password := pystr "TestPass123!",
      password_confirm := pystr "TestPass123!" }
    (pystr "Test@example.com")
    ⟨0, pystr "test@example.com", pystr "TestPass123!", none, none, true, false, false⟩
    ⟨[⟨0, pystr "test@example.com", pystr "TestPass123!", none, none, true, false, false⟩], 1⟩
    (by decide) (by decide) (by intro w hw; cases hw)).2.2 (by decide)

/-! ## C6: the email-normalisation invariant -/

theorem profileValidate_ok {store : Store} {cu : Identity} {inp : ProfileUpdateInput}
    {pm : Bool} {v : ValidatedProfile}
    (h : profileValidate store cu inp pm = .ok v) :
    v = ⟨inp.email.map pyStrip, inp.first_name.map pyStrip, inp.last_name.map pyStrip⟩ := by
  unfold profileValidate at h
  split at h
  · simp only [Except.ok.injEq] at h
    exact h.symm
  · exact absurd h (by simp)

theorem profileUpdate_ok_email {st : Store} {cu : Identity} {pinp : ProfileUpdateInput}
    {pm : Bool} {v : PyStr} {u2 : Identity}
    (hemail : pinp.email = some v)
    (h : (profileUpdate st cu pinp pm).1 = .ok u2) :
    u2.email = pyStrip v := by
  unfold profileUpdate at h
  split at h
  · simp at h
  · rename_i v' heq
    split at h
    · simp at h
    · simp only [] at h
      have hv' := profileValidate_ok heq
      subst hv'
      simp only [ProfileResult.ok.injEq] at h
      rw [← h]
      show (pinp.email.map pyStrip).getD cu.email = pyStrip v
      rw [hemail]
      rfl

/-- C6 as stated is false on the code: a profile update whose payload carries
the mixed-case email "U@Example.com" succeeds and stores it verbatim (only
trimmed), so the stored email is no longer lowercased. -/
theorem C6_counterexample :
    (profileUpdate
        ⟨[⟨0, pystr "u@example.com", pystr "TestPass123!", none, none,
          true, false, false⟩], 1⟩
        ⟨0, pystr "u@example.com", pystr "TestPass123!", none, none, true, false, false⟩
        { email := some (pystr "U@Example.com") } true).1 =
      .ok ⟨0, pystr "U@Example.com", pystr "TestPass123!", none, none,
        true, false, false⟩ ∧
    (profileUpdate
        ⟨[⟨0, pystr "u@example.com", pystr "TestPass123!", none, none,
          true, false, false⟩], 1⟩
        ⟨0, pystr "u@example.com", pystr "TestPass123!", none, none, true, false, false⟩
        { email := some (pystr "U@Example.com") } true).2.users =
      [⟨0, pystr "U@Example.com", pystr "TestPass123!", none, none,
        true, false, false⟩] ∧
    pyLower (pystr "U@Example.com") ≠ pystr "U@Example.com" := by
  exact ⟨rfl, rfl, by decide⟩

/-- C6 amended: registration stores a trimmed and fully lowercased email — in
particular `register("  Test@Example.com  ", ...)` stores "test@example.com" —
but profile updates only trim the submitted email (DRF `trim_whitespace`) and
never lowercase it, so the invariant does not extend to updates. -/
theorem C6_amended (store : Store) (inp : RegistrationInput) (u : Identity) (s1 : Store)
    (hreg : register store inp = (.created u, s1)) :
    u.email = pyStrip (pyLower inp.email) ∧
    pyLower u.email = u.email ∧
    pyStrip u.email = u.email ∧
    (∀ (st : Store) (cu : Identity) (pinp : ProfileUpdateInput) (pm : Bool)
        (v : PyStr) (u2 : Identity),
      pinp.email = some v → (profileUpdate st cu pinp pm).1 = .ok u2 →
      u2.email = pyStrip v) := by
  obtain ⟨w, hval1, hcreate⟩ := register_created hreg
  obtain ⟨_, _, _, _, _, _, hw⟩ := registrationValidate_ok hval1
  have hwe : w.email = pyStrip inp.email := by rw [hw]
  rw [hwe] at hcreate
  obtain ⟨_, hu, _⟩ := create_user_ok hcreate
  have hue : u.email = pyStrip (pyLower inp.email) := by
    rw [hu]
    show storedEmail (pyStrip inp.email) = _
    exact storedEmail_pyStrip inp.email
  refine ⟨hue, ?_, ?_, ?_⟩
  · rw [hue, ← pyStrip_pyLower, pyLower_pyLower]
  · rw [hue, pyStrip_idem]
  · exact fun st cu pinp pm v u2 he h => profileUpdate_ok_email he h

/-- Witness for C6's amended statement: registering "  Test@Example.com  "
stores the trimmed lowercased "test@example.com". -/
theorem C6_amended_witness :
    (⟨0, pystr "test@example.com", pystr "TestPass123!", none, none,
      true, false, false⟩ : Identity).email =
      pyStrip (pyLower (pystr "  Test@Example.com  ")) :=
  (C6_amended emptyStore
    { email := pystr "  Test@Example.com  ", password := pystr "TestPass123!",
      password_confirm := pystr "TestPass123!" }
    ⟨0, pystr "test@example.com", pystr "TestPass123!", none, none, true, false, false⟩
    ⟨[⟨0, pystr "test@example.com", pystr "TestPass123!", none, none,
      true, false, false⟩], 1⟩
    (by decide)).1
